import Mathlib

/-!
Shallow embedding of the randomized-control engine of the YCY-Control
repository (`src/core/random_controller.py`, class `RandomController`).

Modelling conventions:
- Python ints are `ℤ`; durations (floats used only as exact decimal
  constants and simple arithmetic) are `ℚ`.
- `random.choice(l)` is modelled by `pick l k` for an arbitrary index
  `k : ℕ` (any element of `l` is reachable as `k` varies);
  `random.randint(a, b)` by `randint a b k`; `random.uniform(3.0, 11.0)`
  by an arbitrary `hold : ℚ` parameter.
- The device collaborator (`device.set_speed` / `device.set_mode`) is
  modelled by the command type `DeviceCmd`; a possibly-failing device is a
  predicate `fail : DeviceCmd → Bool` saying which writes raise.
- Awaited sleeps and device writes are recorded as an event trace
  (`Ev`); exceptions escaping a call are a `Bool` success flag.
-/

namespace RandomCtrl

/-- A device write: `device.set_speed(channel, value)` or
`device.set_mode(channel, value)`; channels are the strings
`"A"`, `"B"`, `"C"` exactly as in the Python source. -/
inductive DeviceCmd
  | set_speed (channel : String) (value : ℤ)
  | set_mode (channel : String) (value : ℤ)
deriving DecidableEq, Repr

/-- An observable event of the engine: a device write that succeeded, or
an `asyncio.sleep(d)` suspension of `d` seconds. -/
inductive Ev
  | cmd (c : DeviceCmd)
  | sleep (d : ℚ)
deriving DecidableEq, Repr

/-- The `limits` dictionary `{'A': (min, max), ...}`: an association list
from channel name to an inclusive `(min, max)` pair. -/
abbrev LimitsMap : Type := List (String × ℤ × ℤ)

/-- Python `range(a, b + 1)` over integers: the list `a, a+1, ..., b`
(empty when `a > b`). -/
def intRange (a b : ℤ) : List ℤ :=
  (List.range (b + 1 - a).toNat).map (fun i : ℕ => a + (i : ℤ))

/-- `random.choice(l)`: an arbitrary element of the nonempty list `l`,
selected by the random index `k`. -/
def pick : List ℤ → ℕ → ℤ
  | [], _ => 0
  | x :: xs, k => (x :: xs).get ⟨k % (x :: xs).length, Nat.mod_lt _ (Nat.succ_pos _)⟩

/-- `random.randint(a, b)`: an arbitrary integer in `[a, b]`
(for `a ≤ b`), selected by the random index `k`. -/
def randint (a b : ℤ) (k : ℕ) : ℤ :=
  a + ((k % (b + 1 - a).toNat : ℕ) : ℤ)

/-- `self.limits[channel]` (total lookup; callers only use channels that
are present after validation). -/
def lookupLimits (limits : LimitsMap) (channel : String) : ℤ × ℤ :=
  (List.lookup channel limits).getD (0, 0)

/-- `RandomController._generate_random_value(channel, exclude_values)`:
channel `A` draws from `{0 if min = 0} ∪ [max(1,min), min(20,max)] ∪
[max(21,min), min(40,max)]` minus the excluded values, falling back to
`min_val` when that set is empty; channels other than `A` draw from
`[min, max]` minus the excluded values, with the same fallback. -/
def generate_random_value (limits : LimitsMap) (channel : String)
    (exclude_values : List ℤ) (k : ℕ) : ℤ :=
  let p := lookupLimits limits channel
  let min_val := p.1
  let max_val := p.2
  if channel = "A" then
    let possible_values : List ℤ :=
      (if min_val = 0 then [0] else [])
        ++ intRange (max 1 min_val) (min 20 max_val)
        ++ intRange (max 21 min_val) (min 40 max_val)
    let possible_values := possible_values.filter (fun v => decide (v ∉ exclude_values))
    if possible_values = [] then min_val else pick possible_values k
  else
    let possible_values :=
      (intRange min_val max_val).filter (fun v => decide (v ∉ exclude_values))
    if possible_values = [] then min_val else pick possible_values k

/-- Issue a list of device writes in order on a device where `fail`
says which writes raise: returns the writes that landed and `true`, or
the prefix that landed before the first raising write and `false`. -/
def issueCmds (fail : DeviceCmd → Bool) : List DeviceCmd → List DeviceCmd × Bool
  | [] => ([], true)
  | c :: cs =>
    if fail c then ([], false)
    else
      let r := issueCmds fail cs
      (c :: r.1, r.2)

/-- The per-cycle random inputs of one loop iteration: the three
`random.choice` / `random.randint` indices and the hold duration drawn
by `_generate_frequency_delay` (`random.uniform(3.0, 11.0)`). -/
structure Rand where
  kA : ℕ
  kB : ℕ
  kC : ℕ
  hold : ℚ
deriving DecidableEq, Repr

/-- `RandomController._execute_speed_mode()`: generate a value per
channel, then write A, then C, then B (B written as `0` when the drawn
value is not positive). Returns the writes that landed and whether all
succeeded (a device error propagates to the caller). -/
def execute_speed_mode (fail : DeviceCmd → Bool) (limits : LimitsMap)
    (r : Rand) : List DeviceCmd × Bool :=
  let vA := generate_random_value limits "A" [] r.kA
  let vB := generate_random_value limits "B" [] r.kB
  let vC := generate_random_value limits "C" [] r.kC
  issueCmds fail
    [DeviceCmd.set_speed "A" vA,
     DeviceCmd.set_speed "C" vC,
     DeviceCmd.set_speed "B" (if vB > 0 then vB else 0)]

/-- `RandomController._execute_mode_mode()`: draw `random.randint(1, 7)`
for each channel (the caller-supplied limits are not consulted) and
write the three `set_mode` commands in order A, B, C. -/
def execute_mode_mode (fail : DeviceCmd → Bool) (r : Rand) :
    List DeviceCmd × Bool :=
  issueCmds fail
    [DeviceCmd.set_mode "A" (randint 1 7 r.kA),
     DeviceCmd.set_mode "B" (randint 1 7 r.kB),
     DeviceCmd.set_mode "C" (randint 1 7 r.kC)]

/-- The exhale duration of `_handle_b_channel_exhale_cycle`:
`max(0.5, min(inhale_duration * 0.6, 3.0))`. -/
def clampExhale (inhale_duration : ℚ) : ℚ :=
  max 0.5 (min (inhale_duration * 0.6) 3.0)

/-- `RandomController._handle_b_channel_exhale_cycle(inhale_duration)`:
write `set_speed('B', 0)` and sleep the clamped exhale duration; any
exception is caught inside the method, so it never propagates (a failed
write skips the sleep). -/
def handle_b_channel_exhale_cycle (fail : DeviceCmd → Bool)
    (inhale_duration : ℚ) : List Ev :=
  if fail (DeviceCmd.set_speed "B" 0) then []
  else [Ev.cmd (DeviceCmd.set_speed "B" 0), Ev.sleep (clampExhale inhale_duration)]

/-- One iteration of the `while` body of `RandomController._random_loop`:
execute the mode-specific writes, sleep the hold duration, and in speed
mode run the B-channel exhale; a device error raised inside the
iteration is caught by the `except` clause, which logs and sleeps one
second before the loop continues. -/
def loop_iter (fail : DeviceCmd → Bool) (mode : Option String)
    (limits : LimitsMap) (r : Rand) : List Ev :=
  if mode = some "speed" then
    let e := execute_speed_mode fail limits r
    if e.2 then
      e.1.map Ev.cmd ++ [Ev.sleep r.hold]
        ++ handle_b_channel_exhale_cycle fail r.hold
    else
      e.1.map Ev.cmd ++ [Ev.sleep 1]
  else if mode = some "mode" then
    let e := execute_mode_mode fail r
    if e.2 then e.1.map Ev.cmd ++ [Ev.sleep r.hold]
    else e.1.map Ev.cmd ++ [Ev.sleep 1]
  else
    [Ev.sleep r.hold]

/-- `RandomController._execute_once()`: the single-shot path used when
`auto_loop` is false — one mode-specific execution, a fixed 10-second
hold, and in speed mode the exhale with `inhale_duration = 10`; its
`try/except` swallows any device error (no 1-second backoff here). -/
def execute_once (fail : DeviceCmd → Bool) (mode : Option String)
    (limits : LimitsMap) (r : Rand) : List Ev :=
  if mode = some "speed" then
    let e := execute_speed_mode fail limits r
    if e.2 then
      e.1.map Ev.cmd ++ [Ev.sleep 10]
        ++ handle_b_channel_exhale_cycle fail 10
    else e.1.map Ev.cmd
  else if mode = some "mode" then
    let e := execute_mode_mode fail r
    if e.2 then e.1.map Ev.cmd ++ [Ev.sleep 10]
    else e.1.map Ev.cmd
  else
    [Ev.sleep 10]

/-- The mutable fields of a `RandomController` instance relevant to the
claims (`last_b_command_time` is written but never read by the source,
so it is omitted). `has_task` is true when `self.task` holds a live
(not cancelled, not finished) loop task; `has_b_timer` when
`self.b_channel_timer` holds a pending release timer. -/
structure CtrlState where
  is_running : Bool
  mode : Option String
  limits : LimitsMap
  auto_loop : Bool
  has_task : Bool
  has_b_timer : Bool
deriving DecidableEq, Repr

/-- `RandomController.__init__`: idle, no mode, default limits
`{'A': (0, 20), 'B': (1, 20), 'C': (0, 20)}`. -/
def initState : CtrlState where
  is_running := false
  mode := none
  limits := [("A", (0, 20)), ("B", (1, 20)), ("C", (0, 20))]
  auto_loop := true
  has_task := false
  has_b_timer := false

/-- The dictionary returned by the `status` property. -/
structure Status where
  is_running : Bool
  mode : Option String
  limits : LimitsMap
deriving DecidableEq, Repr

/-- `RandomController.status`: a pure read of the current state. -/
def status (s : CtrlState) : Status :=
  { is_running := s.is_running, mode := s.mode, limits := s.limits }

/-- The zero-command sequence sent by `RandomController.stop()`:
`set_speed` zeros when `self.mode == 'speed'`, otherwise (including
`mode is None`) `set_mode` zeros. -/
def zeroCmds (mode : Option String) : List DeviceCmd :=
  if mode = some "speed" then
    [DeviceCmd.set_speed "A" 0, DeviceCmd.set_speed "B" 0, DeviceCmd.set_speed "C" 0]
  else
    [DeviceCmd.set_mode "A" 0, DeviceCmd.set_mode "B" 0, DeviceCmd.set_mode "C" 0]

/-- `RandomController.stop()`: clear `is_running`, cancel and await the
loop task, then send the three zero commands (not guarded by
`try/except` — a device error propagates, skipping the timer
cancellation that follows the writes). Returns the new state, the
writes that landed, and whether `stop` returned normally. -/
def stop (fail : DeviceCmd → Bool) (s : CtrlState) :
    CtrlState × List DeviceCmd × Bool :=
  let s1 : CtrlState := { s with is_running := false, has_task := false }
  let r := issueCmds fail (zeroCmds s1.mode)
  if r.2 then ({ s1 with has_b_timer := false }, r.1, true)
  else (s1, r.1, false)

/-- The validation failures `RandomController.start()` raises as
`ValueError` before touching any state. -/
inductive StartErr
  | bad_mode
  | missing_channel
  | bad_limit (channel : String)
deriving DecidableEq, Repr

/-- The validation prefix of `RandomController.start()`: reject a mode
other than `'speed'`/`'mode'`; reject limits missing any of channels
A, B, C; then scan every entry of `limits` and reject the first whose
pair violates `0 ≤ min ≤ max ≤ 40` (key `'A'`) or `0 ≤ min ≤ max ≤ 20`
(any other key). -/
def validate_start (mode : String) (limits : LimitsMap) : Option StartErr :=
  if ¬ (mode = "speed" ∨ mode = "mode") then some .bad_mode
  else if ¬ ((List.lookup "A" limits).isSome ∧ (List.lookup "B" limits).isSome
      ∧ (List.lookup "C" limits).isSome) then some .missing_channel
  else
    limits.findSome? fun p =>
      if p.1 = "A" then
        if 0 ≤ p.2.1 ∧ p.2.1 ≤ p.2.2 ∧ p.2.2 ≤ 40 then none
        else some (.bad_limit p.1)
      else
        if 0 ≤ p.2.1 ∧ p.2.1 ≤ p.2.2 ∧ p.2.2 ≤ 20 then none
        else some (.bad_limit p.1)

/-- The outcome of a `start()` call: the resulting controller state, the
events the call itself produced (the implicit stop's zeros, plus the
single-shot execution when `auto_loop` is false), the validation error
if one was raised, and whether a device error propagated out of the
implicit stop. -/
structure StartOut where
  state : CtrlState
  events : List Ev
  err : Option StartErr
  dev_ok : Bool
deriving DecidableEq, Repr

/-- `RandomController.start(mode, limits, auto_loop)`: validate (state
untouched on failure); assign `self.mode`, `self.limits`,
`self.auto_loop`; if running, perform the implicit `stop()` (whose
device errors propagate); set `is_running`; then either create the loop
task (`auto_loop`) or run `_execute_once` inline. -/
def start (fail : DeviceCmd → Bool) (s : CtrlState) (mode : String)
    (limits : LimitsMap) (auto_loop : Bool) (r : Rand) : StartOut :=
  match validate_start mode limits with
  | some e => { state := s, events := [], err := some e, dev_ok := true }
  | none =>
    let s1 : CtrlState := { s with mode := some mode, limits := limits, auto_loop := auto_loop }
    let stopped := if s1.is_running then stop fail s1 else (s1, [], true)
    if stopped.2.2 then
      let s3 : CtrlState := { stopped.1 with is_running := true }
      if auto_loop then
        { state := { s3 with has_task := true },
          events := stopped.2.1.map Ev.cmd, err := none, dev_ok := true }
      else
        { state := s3,
          events := stopped.2.1.map Ev.cmd ++ execute_once fail (some mode) limits r,
          err := none, dev_ok := true }
    else
      { state := stopped.1, events := stopped.2.1.map Ev.cmd,
        err := none, dev_ok := false }

/-- A controller configuration for the concurrency model: the instance
state, the loop task's remaining scheduled iterations (meaningful while
`has_task` is true), and whether a single-shot (`auto_loop=False`)
execution is in flight — i.e. `_execute_once` is suspended at its
10-second `asyncio.sleep` inside `start()`'s own coroutine. That
suspension has NO task handle: `self.task` is only assigned in the
auto-loop branch of `start()`, so `stop()` has nothing to cancel for
it. -/
structure Config where
  ctrl : CtrlState
  pending : List Rand
  single_inflight : Bool

/-- The events the suspended single-shot coroutine still performs when
it wakes from the 10-second hold of `_execute_once`: if the CURRENT
`self.mode` is `'speed'` (stop() does not clear `self.mode`), the
inline B-channel exhale `_handle_b_channel_exhale_cycle(10)`; otherwise
nothing. -/
def single_shot_resume (fail : DeviceCmd → Bool) (mode : Option String) : List Ev :=
  if mode = some "speed" then handle_b_channel_exhale_cycle fail 10 else []

/-- The asynchronous steps a session can take on its own (with no
`start`/`stop` call): one full cycle of the loop task; the firing of a
pending B-channel release timer (`_schedule_exhale` followed by
`_handle_b_channel_exhale`, which writes `set_speed('B', 0)` only in
speed mode and swallows device errors); or the wake-up of an in-flight
single-shot execution, which runs the inline exhale of the current
mode. The loop cycle rechecks `is_running` and `auto_loop` (the `while`
condition) and needs a live task; the timer firing needs a pending
timer; the single-shot wake-up needs NO flag of the controller state —
the suspended coroutine resumes unconditionally, which is what makes it
uncancellable by `stop()`. -/
inductive SessionStep (fail : DeviceCmd → Bool) : Config → List Ev → Config → Prop
  | loop_cycle (cfg : Config) (r : Rand) (rs : List Rand) :
      cfg.ctrl.has_task = true →
      cfg.ctrl.is_running = true →
      cfg.ctrl.auto_loop = true →
      cfg.pending = r :: rs →
      SessionStep fail cfg (loop_iter fail cfg.ctrl.mode cfg.ctrl.limits r)
        ⟨cfg.ctrl, rs, cfg.single_inflight⟩
  | timer_release (cfg : Config) :
      cfg.ctrl.has_b_timer = true →
      SessionStep fail cfg
        (if cfg.ctrl.mode = some "speed" ∧ fail (DeviceCmd.set_speed "B" 0) = false
         then [Ev.cmd (DeviceCmd.set_speed "B" 0)] else [])
        ⟨{ cfg.ctrl with has_b_timer := false }, cfg.pending, cfg.single_inflight⟩
  | single_shot_wake (cfg : Config) :
      cfg.single_inflight = true →
      SessionStep fail cfg (single_shot_resume fail cfg.ctrl.mode)
        ⟨cfg.ctrl, cfg.pending, false⟩

/-! ### Helper lemmas -/

theorem mem_intRange {a b v : ℤ} : v ∈ intRange a b ↔ a ≤ v ∧ v ≤ b := by
  unfold intRange
  rw [List.mem_map]
  constructor
  · rintro ⟨i, hi, rfl⟩
    rw [List.mem_range] at hi
    omega
  · rintro ⟨h1, h2⟩
    refine ⟨(v - a).toNat, ?_, ?_⟩
    · rw [List.mem_range]; omega
    · omega

theorem pick_mem {l : List ℤ} (k : ℕ) (h : l ≠ []) : pick l k ∈ l := by
  cases l with
  | nil => exact absurd rfl h
  | cons x xs =>
    unfold pick
    exact List.get_mem _ _ _

theorem randint_bounds {a b : ℤ} (k : ℕ) (h : a ≤ b) :
    a ≤ randint a b k ∧ randint a b k ≤ b := by
  unfold randint
  have hpos : 0 < (b + 1 - a).toNat := by omega
  have := Nat.mod_lt k hpos
  omega

theorem filter_exclude_nil (l : List ℤ) :
    l.filter (fun v => decide (v ∉ ([] : List ℤ))) = l := by
  simp

theorem issueCmds_all_ok {fail : DeviceCmd → Bool} {l : List DeviceCmd}
    (h : ∀ c ∈ l, fail c = false) : issueCmds fail l = (l, true) := by
  induction l with
  | nil => rfl
  | cons c cs ih =>
    simp only [issueCmds, h c (List.mem_cons_self c cs), Bool.false_eq_true,
      if_false, ite_false]
    rw [ih (fun d hd => h d (List.mem_cons_of_mem c hd))]

/-- `stop()` on a device where no write fails: success, the state with
the loop task and B timer cancelled, and exactly the three zero
commands of the current mode issued. -/
theorem stop_no_fail {fail : DeviceCmd → Bool} (hf : ∀ c, fail c = false)
    (s : CtrlState) :
    stop fail s
      = ({ s with is_running := false, has_task := false, has_b_timer := false },
         zeroCmds s.mode, true) := by
  simp [stop, issueCmds_all_ok (fun c _ => hf c)]

theorem zeroCmds_ne_nil (mode : Option String) : zeroCmds mode ≠ [] := by
  unfold zeroCmds
  split <;> simp

theorem zeroCmds_length (mode : Option String) : (zeroCmds mode).length = 3 := by
  unfold zeroCmds
  split <;> rfl

theorem issueCmds_ok_iff (fail : DeviceCmd → Bool) (l : List DeviceCmd) :
    (issueCmds fail l).2 = true ↔ ∀ c ∈ l, fail c = false := by
  induction l with
  | nil => simp [issueCmds]
  | cons c cs ih =>
    by_cases hc : fail c <;> simp [issueCmds, hc, ih]

theorem issueCmds_mem {fail : DeviceCmd → Bool} {l : List DeviceCmd}
    {c : DeviceCmd} (h : c ∈ (issueCmds fail l).1) : c ∈ l := by
  induction l with
  | nil => simp [issueCmds] at h
  | cons d ds ih =>
    by_cases hd : fail d
    · simp [issueCmds, hd] at h
    · simp only [issueCmds, hd, if_neg, Bool.false_eq_true, not_false_iff,
        ite_false, List.mem_cons] at h
      rcases h with h | h
      · simp [h]
      · exact List.mem_cons_of_mem _ (ih h)

theorem loop_iter_speed (fail : DeviceCmd → Bool) (limits : LimitsMap) (r : Rand) :
    loop_iter fail (some "speed") limits r
      = if (execute_speed_mode fail limits r).2 then
          (execute_speed_mode fail limits r).1.map Ev.cmd ++ [Ev.sleep r.hold]
            ++ handle_b_channel_exhale_cycle fail r.hold
        else (execute_speed_mode fail limits r).1.map Ev.cmd ++ [Ev.sleep 1] := by
  unfold loop_iter
  rw [if_pos rfl]

theorem loop_iter_mode_mode (fail : DeviceCmd → Bool) (limits : LimitsMap) (r : Rand) :
    loop_iter fail (some "mode") limits r
      = if (execute_mode_mode fail r).2 then
          (execute_mode_mode fail r).1.map Ev.cmd ++ [Ev.sleep r.hold]
        else (execute_mode_mode fail r).1.map Ev.cmd ++ [Ev.sleep 1] := by
  unfold loop_iter
  rw [if_neg (by decide : ¬ (some "mode" : Option String) = some "speed"), if_pos rfl]

theorem execute_once_mode_mode (fail : DeviceCmd → Bool) (limits : LimitsMap)
    (r : Rand) :
    execute_once fail (some "mode") limits r
      = if (execute_mode_mode fail r).2 then
          (execute_mode_mode fail r).1.map Ev.cmd ++ [Ev.sleep 10]
        else (execute_mode_mode fail r).1.map Ev.cmd := by
  unfold execute_once
  rw [if_neg (by decide : ¬ (some "mode" : Option String) = some "speed"), if_pos rfl]

/-- Unfold `_generate_random_value` at channel A, with no excluded
values, to the source's candidate list. -/
theorem generate_A_eq (limits : LimitsMap) (mn mx : ℤ) (k : ℕ)
    (hlook : List.lookup "A" limits = some (mn, mx)) :
    generate_random_value limits "A" [] k
      = (if ((if mn = 0 then [(0 : ℤ)] else []) ++ intRange (max 1 mn) (min 20 mx)
            ++ intRange (max 21 mn) (min 40 mx)) = [] then mn
         else pick ((if mn = 0 then [(0 : ℤ)] else []) ++ intRange (max 1 mn) (min 20 mx)
            ++ intRange (max 21 mn) (min 40 mx)) k) := by
  have hl : lookupLimits limits "A" = (mn, mx) := by simp [lookupLimits, hlook]
  simp only [generate_random_value, hl, filter_exclude_nil, if_pos rfl]
  rw [if_pos trivial]

/-- Unfold `_generate_random_value` at a non-A channel, with no excluded
values, to a draw from the flat inclusive range. -/
theorem generate_other_eq (limits : LimitsMap) (ch : String) (mn mx : ℤ) (k : ℕ)
    (hch : ¬ ch = "A") (hlook : List.lookup ch limits = some (mn, mx)) :
    generate_random_value limits ch [] k
      = (if intRange mn mx = [] then mn else pick (intRange mn mx) k) := by
  have hl : lookupLimits limits ch = (mn, mx) := by simp [lookupLimits, hlook]
  simp only [generate_random_value, hl, filter_exclude_nil, if_neg hch]

/-- C10: a freshly constructed `RandomController` reports `status()`
with `is_running` false, `mode` `None`, and the non-empty default
limits `A: (0, 20), B: (1, 20), C: (0, 20)`. -/
theorem c10_fresh_status :
    status initState
      = { is_running := false, mode := none,
          limits := [("A", (0, 20)), ("B", (1, 20)), ("C", (0, 20))] }
    ∧ (status initState).limits ≠ [] :=
  ⟨rfl, by decide⟩

/-- C7: in Speed mode, for every valid limits, every generated value
for channel B and for channel C lies in that channel's inclusive
`[min, max]` range. -/
theorem c7_bc_channel_in_range (limits : LimitsMap) (ch : String) (mn mx : ℤ)
    (k : ℕ) (hch : ch = "B" ∨ ch = "C")
    (hlook : List.lookup ch limits = some (mn, mx))
    (h0 : 0 ≤ mn) (h1 : mn ≤ mx) (h2 : mx ≤ 20) :
    mn ≤ generate_random_value limits ch [] k
      ∧ generate_random_value limits ch [] k ≤ mx := by
  have hA : ¬ ch = "A" := by rcases hch with rfl | rfl <;> decide
  have hne : intRange mn mx ≠ [] :=
    List.ne_nil_of_mem (mem_intRange.mpr ⟨le_refl mn, h1⟩)
  rw [generate_other_eq limits ch mn mx k hA hlook, if_neg hne]
  exact mem_intRange.mp (pick_mem k hne)

theorem c7_witness :
    (1 : ℤ) ≤ generate_random_value initState.limits "B" [] 5
      ∧ generate_random_value initState.limits "B" [] 5 ≤ 20 :=
  c7_bc_channel_in_range initState.limits "B" 1 20 5 (Or.inl rfl) (by decide)
    (by decide) (by decide) (by decide)

/-- Any element of channel A's candidate list lies in the union of
`{0}` (present only when `min = 0`) and the forward and reverse
sub-ranges. -/
theorem mem_union_cases {mn mx v : ℤ}
    (h : v ∈ (if mn = 0 then [(0 : ℤ)] else []) ++ intRange (max 1 mn) (min 20 mx)
        ++ intRange (max 21 mn) (min 40 mx)) :
    (mn = 0 ∧ v = 0) ∨ (max 1 mn ≤ v ∧ v ≤ min 20 mx)
      ∨ (max 21 mn ≤ v ∧ v ≤ min 40 mx) := by
  rw [List.mem_append, List.mem_append] at h
  rcases h with (hv | hv) | hv
  · by_cases hmn : mn = 0
    · rw [if_pos hmn, List.mem_singleton] at hv
      exact Or.inl ⟨hmn, hv⟩
    · rw [if_neg hmn] at hv
      exact absurd hv (List.not_mem_nil _)
  · exact Or.inr (Or.inl (mem_intRange.mp hv))
  · exact Or.inr (Or.inr (mem_intRange.mp hv))

/-- C5: in Speed mode with valid channel-A limits
(`0 ≤ min ≤ max ≤ 40`), the generated A value lies in the union of
`{0}` (only when `min = 0`), the forward sub-range
`[max(1,min), min(20,max)]`, and the reverse sub-range
`[max(21,min), min(40,max)]`; and whenever that union is empty the
generator returns `min`. -/
theorem c5_a_channel_domain (limits : LimitsMap) (mn mx : ℤ) (k : ℕ)
    (hlook : List.lookup "A" limits = some (mn, mx))
    (h0 : 0 ≤ mn) (h1 : mn ≤ mx) (h2 : mx ≤ 40) :
    ((mn = 0 ∧ generate_random_value limits "A" [] k = 0)
      ∨ (max 1 mn ≤ generate_random_value limits "A" [] k
          ∧ generate_random_value limits "A" [] k ≤ min 20 mx)
      ∨ (max 21 mn ≤ generate_random_value limits "A" [] k
          ∧ generate_random_value limits "A" [] k ≤ min 40 mx))
    ∧ ((if mn = 0 then [(0 : ℤ)] else []) ++ intRange (max 1 mn) (min 20 mx)
          ++ intRange (max 21 mn) (min 40 mx) = []
        → generate_random_value limits "A" [] k = mn) := by
  have hmemL : (if mn = 0 then (0 : ℤ) else mn)
      ∈ (if mn = 0 then [(0 : ℤ)] else []) ++ intRange (max 1 mn) (min 20 mx)
        ++ intRange (max 21 mn) (min 40 mx) := by
    by_cases hmn : mn = 0
    · simp [hmn]
    · rw [if_neg hmn]
      rcases le_or_lt mn 20 with h20 | h20
      · exact List.mem_append_left _ (List.mem_append_right _
          (mem_intRange.mpr ⟨by omega, by omega⟩))
      · exact List.mem_append_right _ (mem_intRange.mpr ⟨by omega, by omega⟩)
  have hne := List.ne_nil_of_mem hmemL
  constructor
  · rw [generate_A_eq limits mn mx k hlook, if_neg hne]
    exact mem_union_cases (pick_mem k hne)
  · intro hempty
    rw [generate_A_eq limits mn mx k hlook, if_pos hempty]

theorem c5_witness :
    (((0 : ℤ) = 0 ∧ generate_random_value initState.limits "A" [] 3 = 0)
      ∨ (max 1 0 ≤ generate_random_value initState.limits "A" [] 3
          ∧ generate_random_value initState.limits "A" [] 3 ≤ min 20 20)
      ∨ (max 21 0 ≤ generate_random_value initState.limits "A" [] 3
          ∧ generate_random_value initState.limits "A" [] 3 ≤ min 40 20))
    ∧ ((if (0 : ℤ) = 0 then [(0 : ℤ)] else []) ++ intRange (max 1 0) (min 20 20)
          ++ intRange (max 21 0) (min 40 20) = []
        → generate_random_value initState.limits "A" [] 3 = 0) :=
  c5_a_channel_domain initState.limits 0 20 3 (by decide) (by decide) (by decide)
    (by decide)

theorem execute_mode_mode_shape {fail : DeviceCmd → Bool} {r : Rand}
    {c : DeviceCmd} (h : c ∈ (execute_mode_mode fail r).1) :
    c = DeviceCmd.set_mode "A" (randint 1 7 r.kA)
      ∨ c = DeviceCmd.set_mode "B" (randint 1 7 r.kB)
      ∨ c = DeviceCmd.set_mode "C" (randint 1 7 r.kC) := by
  have hm := issueCmds_mem h
  simpa using hm

theorem loop_iter_mode_cmds {fail : DeviceCmd → Bool} {limits : LimitsMap}
    {r : Rand} {c : DeviceCmd}
    (h : Ev.cmd c ∈ loop_iter fail (some "mode") limits r) :
    c ∈ (execute_mode_mode fail r).1 := by
  rw [loop_iter_mode_mode] at h
  split at h <;> simp_all

theorem execute_once_mode_cmds {fail : DeviceCmd → Bool} {limits : LimitsMap}
    {r : Rand} {c : DeviceCmd}
    (h : Ev.cmd c ∈ execute_once fail (some "mode") limits r) :
    c ∈ (execute_mode_mode fail r).1 := by
  rw [execute_once_mode_mode] at h
  split at h <;> simp_all

theorem randint17_bounds (k : ℕ) : 1 ≤ randint 1 7 k ∧ randint 1 7 k ≤ 7 :=
  randint_bounds k (by decide)

theorem loop_iter_mode_no_speed (fail : DeviceCmd → Bool) (limits : LimitsMap)
    (r : Rand) (ch' : String) (v' : ℤ) :
    Ev.cmd (DeviceCmd.set_speed ch' v') ∉ loop_iter fail (some "mode") limits r := by
  intro h
  rcases execute_mode_mode_shape (loop_iter_mode_cmds h) with h1 | h1 | h1 <;>
    exact DeviceCmd.noConfusion h1

theorem execute_once_mode_no_speed (fail : DeviceCmd → Bool) (limits : LimitsMap)
    (r : Rand) (ch' : String) (v' : ℤ) :
    Ev.cmd (DeviceCmd.set_speed ch' v') ∉ execute_once fail (some "mode") limits r := by
  intro h
  rcases execute_mode_mode_shape (execute_once_mode_cmds h) with h1 | h1 | h1 <;>
    exact DeviceCmd.noConfusion h1

/-- C6: in Mode mode every per-cycle value written to a channel lies in
`[1, 7]` (in particular it is never 0); the cycle trace is independent
of the caller-supplied limits; and no channel-B release (a
`set_speed('B', 0)` write — indeed no `set_speed` write at all) occurs,
in the auto-loop body and in the single-shot path alike. -/
theorem c6_mode_mode_writes (fail : DeviceCmd → Bool)
    (limits limits' : LimitsMap) (r : Rand) (ch ch' : String) (v v' : ℤ)
    (h : Ev.cmd (DeviceCmd.set_mode ch v) ∈ loop_iter fail (some "mode") limits r
       ∨ Ev.cmd (DeviceCmd.set_mode ch v) ∈ execute_once fail (some "mode") limits r) :
    (1 ≤ v ∧ v ≤ 7)
    ∧ Ev.cmd (DeviceCmd.set_speed ch' v') ∉ loop_iter fail (some "mode") limits r
    ∧ Ev.cmd (DeviceCmd.set_speed ch' v') ∉ execute_once fail (some "mode") limits r
    ∧ loop_iter fail (some "mode") limits r = loop_iter fail (some "mode") limits' r
    ∧ execute_once fail (some "mode") limits r
        = execute_once fail (some "mode") limits' r := by
  refine ⟨?_, loop_iter_mode_no_speed fail limits r ch' v',
    execute_once_mode_no_speed fail limits r ch' v', ?_, ?_⟩
  · have hc : DeviceCmd.set_mode ch v ∈ (execute_mode_mode fail r).1 := by
      rcases h with h | h
      · exact loop_iter_mode_cmds h
      · exact execute_once_mode_cmds h
    rcases execute_mode_mode_shape hc with h1 | h1 | h1 <;>
      (simp only [DeviceCmd.set_mode.injEq] at h1;
       rcases h1 with ⟨-, rfl⟩;
       exact randint17_bounds _)
  · rw [loop_iter_mode_mode, loop_iter_mode_mode]
  · rw [execute_once_mode_mode, execute_once_mode_mode]

theorem c6_witness :
    (Ev.cmd (DeviceCmd.set_mode "A" 1)
        ∈ loop_iter (fun _ => false) (some "mode") initState.limits ⟨0, 0, 0, 5⟩)
    ∧ ((1 : ℤ) ≤ 1 ∧ (1 : ℤ) ≤ 7)
    ∧ loop_iter (fun _ => false) (some "mode") initState.limits ⟨0, 0, 0, 5⟩
        = loop_iter (fun _ => false) (some "mode") [("A", (0, 1))] ⟨0, 0, 0, 5⟩ :=
  ⟨by decide,
   (c6_mode_mode_writes (fun _ => false) initState.limits [("A", (0, 1))]
      ⟨0, 0, 0, 5⟩ "A" "B" 1 0 (Or.inl (by decide))).1,
   (c6_mode_mode_writes (fun _ => false) initState.limits [("A", (0, 1))]
      ⟨0, 0, 0, 5⟩ "A" "B" 1 0 (Or.inl (by decide))).2.2.2.1⟩

/-- C8: in Speed mode, after the cycle's hold period the engine writes
`set_speed('B', 0)` and then suspends for
`max(0.5, min(hold * 0.6, 3.0))` seconds — the exhale duration equal to
60% of the hold duration clamped to `[0.5, 3.0]`. -/
theorem c8_exhale_after_hold (fail : DeviceCmd → Bool) (limits : LimitsMap)
    (r : Rand) (hok : (execute_speed_mode fail limits r).2 = true)
    (hb : fail (DeviceCmd.set_speed "B" 0) = false) :
    loop_iter fail (some "speed") limits r
      = (execute_speed_mode fail limits r).1.map Ev.cmd
        ++ [Ev.sleep r.hold, Ev.cmd (DeviceCmd.set_speed "B" 0),
            Ev.sleep (max 0.5 (min (r.hold * 0.6) 3.0))] := by
  rw [loop_iter_speed, if_pos hok]
  unfold handle_b_channel_exhale_cycle clampExhale
  rw [if_neg (by rw [hb]; exact Bool.false_ne_true)]
  simp

theorem c8_witness :
    loop_iter (fun _ => false) (some "speed") initState.limits ⟨0, 0, 0, 5⟩
      = (execute_speed_mode (fun _ => false) initState.limits ⟨0, 0, 0, 5⟩).1.map Ev.cmd
        ++ [Ev.sleep 5, Ev.cmd (DeviceCmd.set_speed "B" 0),
            Ev.sleep (max 0.5 (min ((5 : ℚ) * 0.6) 3.0))] :=
  c8_exhale_after_hold (fun _ => false) initState.limits ⟨0, 0, 0, 5⟩
    (by decide) (by decide)

/-- A controller mid-session: Running in Speed mode with a live loop
task — the state reached by `start('speed', default limits, True)` on a
fresh controller. -/
def runningSpeed : CtrlState :=
  { initState with is_running := true, mode := some "speed", has_task := true }

theorem start_err_eq (fail : DeviceCmd → Bool) (s : CtrlState) (mode : String)
    (limits : LimitsMap) (auto_loop : Bool) (r : Rand) :
    (start fail s mode limits auto_loop r).err = validate_start mode limits := by
  unfold start
  cases hv : validate_start mode limits with
  | some e => rfl
  | none =>
    dsimp only
    split <;> (try split) <;> (try split) <;> rfl

theorem validate_entry_isSome (p : String × ℤ × ℤ) :
    (if p.1 = "A" then
        if 0 ≤ p.2.1 ∧ p.2.1 ≤ p.2.2 ∧ p.2.2 ≤ 40 then none
        else some (StartErr.bad_limit p.1)
      else
        if 0 ≤ p.2.1 ∧ p.2.1 ≤ p.2.2 ∧ p.2.2 ≤ 20 then none
        else some (StartErr.bad_limit p.1)).isSome = true
      ↔ ¬ (0 ≤ p.2.1 ∧ p.2.1 ≤ p.2.2
            ∧ p.2.2 ≤ (if p.1 = "A" then (40 : ℤ) else 20)) := by
  by_cases hA : p.1 = "A"
  · rw [if_pos hA, if_pos hA]
    split <;> simp_all
  · rw [if_neg hA, if_neg hA]
    split <;> simp_all

/-- The exact condition under which the validation prefix of `start()`
raises a `ValueError`. -/
theorem validate_start_isSome_iff (mode : String) (limits : LimitsMap) :
    (validate_start mode limits).isSome = true
      ↔ (¬ mode = "speed" ∧ ¬ mode = "mode")
        ∨ (List.lookup "A" limits = none ∨ List.lookup "B" limits = none
            ∨ List.lookup "C" limits = none)
        ∨ (∃ p ∈ limits, ¬ (0 ≤ p.2.1 ∧ p.2.1 ≤ p.2.2
            ∧ p.2.2 ≤ (if p.1 = "A" then (40 : ℤ) else 20))) := by
  unfold validate_start
  by_cases hm : mode = "speed" ∨ mode = "mode"
  · rw [if_neg (not_not_intro hm)]
    by_cases hp : (List.lookup "A" limits).isSome ∧ (List.lookup "B" limits).isSome
        ∧ (List.lookup "C" limits).isSome
    · rw [if_neg (not_not_intro hp)]
      constructor
      · intro hfind
        obtain ⟨p, hpmem, hpsome⟩ := List.findSome?_isSome_iff.mp hfind
        exact Or.inr (Or.inr ⟨p, hpmem, (validate_entry_isSome p).mp hpsome⟩)
      · rintro (⟨hs, hmm⟩ | habs | ⟨p, hpmem, hviol⟩)
        · rcases hm with h | h
          · exact absurd h hs
          · exact absurd h hmm
        · rcases hp with ⟨hA, hB, hC⟩
          rcases habs with h | h | h <;> simp_all
        · exact List.findSome?_isSome_iff.mpr
            ⟨p, hpmem, (validate_entry_isSome p).mpr hviol⟩
    · rw [if_pos hp]
      constructor
      · intro _
        refine Or.inr (Or.inl ?_)
        by_contra hno
        push_neg at hno
        exact hp ⟨Option.ne_none_iff_isSome.mp hno.1,
          Option.ne_none_iff_isSome.mp hno.2.1,
          Option.ne_none_iff_isSome.mp hno.2.2⟩
      · intro _
        rfl
  · rw [if_pos hm]
    constructor
    · intro _
      exact Or.inl (not_or.mp hm)
    · intro _
      rfl

theorem stop_state_of_ok {fail : DeviceCmd → Bool} {s : CtrlState}
    (hok : (stop fail s).2.2 = true) :
    (stop fail s).1
      = { s with is_running := false, has_task := false, has_b_timer := false } := by
  simp only [stop] at hok ⊢
  split at hok
  case isTrue h => rw [if_pos h]
  case isFalse h => simp at hok

theorem take3_zeros (mode : Option String) (tail : List Ev) :
    (((zeroCmds mode).map Ev.cmd) ++ tail).take 3 = (zeroCmds mode).map Ev.cmd := by
  unfold zeroCmds
  split <;> simp

/-- C1 counterexample: starting while Running with the first session in
Speed mode and the second in Mode mode issues the zero sequence with
`set_mode` — the second session's mode — not `set_speed` as the claim
(which says the first session's mode is used) requires: `start()`
overwrites `self.mode` before the implicit `stop()` runs. -/
theorem c1_counterexample :
    (start (fun _ => false)
        { initState with is_running := true, mode := some "speed", has_task := true }
        "mode" initState.limits true ⟨0, 0, 0, 5⟩).events
      = [Ev.cmd (DeviceCmd.set_mode "A" 0), Ev.cmd (DeviceCmd.set_mode "B" 0),
         Ev.cmd (DeviceCmd.set_mode "C" 0)]
    ∧ (start (fun _ => false)
        { initState with is_running := true, mode := some "speed", has_task := true }
        "mode" initState.limits true ⟨0, 0, 0, 5⟩).events
      ≠ (zeroCmds (some "speed")).map Ev.cmd := by
  decide

/-- C1 (amended): `start()` while Running leaves exactly one active
session (running, with a loop task exactly when `auto_loop`), and before
the second session's first cycle it issues the zero-command sequence to
all three channels using the SECOND session's mode, because `self.mode`
is reassigned before the implicit `stop()`. -/
theorem c1_restart_amended (s : CtrlState) (mode : String) (limits : LimitsMap)
    (auto_loop : Bool) (r : Rand) (hrun : s.is_running = true)
    (hval : validate_start mode limits = none) :
    (start (fun _ => false) s mode limits auto_loop r).state.is_running = true
    ∧ (start (fun _ => false) s mode limits auto_loop r).state.has_task = auto_loop
    ∧ (start (fun _ => false) s mode limits auto_loop r).err = none
    ∧ (start (fun _ => false) s mode limits auto_loop r).events.take 3
        = (zeroCmds (some mode)).map Ev.cmd := by
  have hsnf := stop_no_fail (fun _ => rfl)
    ({ s with mode := some mode, limits := limits, auto_loop := auto_loop } : CtrlState)
  unfold start
  rw [hval]
  dsimp only
  rw [if_pos hrun, hsnf]
  dsimp only
  cases auto_loop with
  | true =>
    refine ⟨rfl, rfl, rfl, ?_⟩
    have h := take3_zeros (some mode) []
    rwa [List.append_nil] at h
  | false =>
    exact ⟨rfl, rfl, rfl, take3_zeros (some mode) _⟩

theorem c1_witness :
    (start (fun _ => false)
        { initState with is_running := true, mode := some "speed", has_task := true }
        "mode" initState.limits true ⟨0, 0, 0, 5⟩).state.is_running = true
    ∧ (start (fun _ => false)
        { initState with is_running := true, mode := some "speed", has_task := true }
        "mode" initState.limits true ⟨0, 0, 0, 5⟩).state.has_task = true
    ∧ (start (fun _ => false)
        { initState with is_running := true, mode := some "speed", has_task := true }
        "mode" initState.limits true ⟨0, 0, 0, 5⟩).err = none
    ∧ (start (fun _ => false)
        { initState with is_running := true, mode := some "speed", has_task := true }
        "mode" initState.limits true ⟨0, 0, 0, 5⟩).events.take 3
        = (zeroCmds (some "mode")).map Ev.cmd :=
  c1_restart_amended _ "mode" initState.limits true ⟨0, 0, 0, 5⟩ rfl (by decide)

/-- C2 counterexample: a freshly constructed (Idle) controller, on
`stop()`, DOES issue device commands — the three `set_mode` zeros
(mode is `None`, so the non-speed branch runs) — contradicting the
claim that no device command is issued. -/
theorem c2_counterexample :
    initState.is_running = false
    ∧ (stop (fun _ => false) initState).2.1
        = [DeviceCmd.set_mode "A" 0, DeviceCmd.set_mode "B" 0,
           DeviceCmd.set_mode "C" 0]
    ∧ (stop (fun _ => false) initState).2.1 ≠ [] := by
  decide

/-- C2 (amended): for every Idle engine, `stop()` (on a device whose
writes succeed) returns success but issues exactly the three
zero commands of the last mode — `set_speed` zeros if the last mode was
Speed, otherwise (including the fresh `None` mode) `set_mode` zeros. -/
theorem c2_idle_stop_amended (fail : DeviceCmd → Bool) (s : CtrlState)
    (hidle : s.is_running = false) (hf : ∀ c, fail c = false) :
    (stop fail s).2.2 = true
    ∧ (stop fail s).2.1 = zeroCmds s.mode
    ∧ (stop fail s).2.1 ≠ [] := by
  rw [stop_no_fail hf]
  exact ⟨rfl, rfl, zeroCmds_ne_nil s.mode⟩

theorem c2_witness :
    (stop (fun _ => false) initState).2.2 = true
    ∧ (stop (fun _ => false) initState).2.1 = zeroCmds initState.mode
    ∧ (stop (fun _ => false) initState).2.1 ≠ [] :=
  c2_idle_stop_amended (fun _ => false) initState rfl (fun _ => rfl)

/-- C3 counterexample: limits that do NOT contain exactly channels
A, B, C — they also contain channel D — are accepted by `start()`
(no ValidationError), contradicting the claim's "exactly". -/
theorem c3_counterexample :
    (List.lookup "D"
        ([("A", (0, 5)), ("B", (0, 5)), ("C", (0, 5)), ("D", (0, 5))] : LimitsMap)).isSome
      = true
    ∧ (start (fun _ => false) initState "speed"
        [("A", (0, 5)), ("B", (0, 5)), ("C", (0, 5)), ("D", (0, 5))] true
        ⟨0, 0, 0, 5⟩).err = none := by
  decide

/-- C3 (amended): `start()` fails with a ValidationError exactly when
the mode is not `'speed'`/`'mode'`, or one of channels A, B, C is
missing from limits, or some entry of limits (extra channels are
allowed, validated against the 0–20 bound) violates
`0 ≤ min ≤ max ≤ bound` (bound 40 for key A, else 20); and on failure
the controller state — hence `status()` — is unchanged and no device
command has been issued. -/
theorem c3_validation_amended (fail : DeviceCmd → Bool) (s : CtrlState)
    (mode : String) (limits : LimitsMap) (auto_loop : Bool) (r : Rand) :
    ((start fail s mode limits auto_loop r).err.isSome = true
      ↔ (¬ mode = "speed" ∧ ¬ mode = "mode")
        ∨ (List.lookup "A" limits = none ∨ List.lookup "B" limits = none
            ∨ List.lookup "C" limits = none)
        ∨ (∃ p ∈ limits, ¬ (0 ≤ p.2.1 ∧ p.2.1 ≤ p.2.2
            ∧ p.2.2 ≤ (if p.1 = "A" then (40 : ℤ) else 20))))
    ∧ ((start fail s mode limits auto_loop r).err.isSome = true →
        (start fail s mode limits auto_loop r).state = s
        ∧ (start fail s mode limits auto_loop r).events = []) := by
  constructor
  · rw [start_err_eq]
    exact validate_start_isSome_iff mode limits
  · intro herr
    rw [start_err_eq] at herr
    cases hval : validate_start mode limits with
    | none => rw [hval] at herr; simp at herr
    | some e =>
      constructor
      · unfold start
        rw [hval]
      · unfold start
        rw [hval]

theorem c3_witness :
    (start (fun _ => false) initState "bad" initState.limits true
        ⟨0, 0, 0, 5⟩).state = initState
    ∧ (start (fun _ => false) initState "bad" initState.limits true
        ⟨0, 0, 0, 5⟩).events = [] :=
  (c3_validation_amended (fun _ => false) initState "bad" initState.limits true
    ⟨0, 0, 0, 5⟩).2 (by decide)

/-- C4 counterexample: a device whose `set_speed('A', 0)` write raises
makes `stop()` propagate the error to its caller (it returns
abnormally), contradicting the claim that device-write errors are never
propagated to the caller of `stop()`. -/
theorem c4_counterexample :
    (stop (fun c => decide (c = DeviceCmd.set_speed "A" 0)) runningSpeed).2.2
      = false := by
  decide

/-- C4 (amended): a device-write error inside the auto-loop body is
caught — the iteration ends with the logged error and a 1-second sleep,
and the loop (which never touches `is_running`) continues — in both
Speed and Mode modes; but `stop()`'s zero writes are unguarded: `stop`
propagates an error exactly when one of its three zero writes fails. -/
theorem c4_error_handling_amended (fail : DeviceCmd → Bool) (limits : LimitsMap)
    (r : Rand) (s : CtrlState)
    (hsp : (execute_speed_mode fail limits r).2 = false) :
    loop_iter fail (some "speed") limits r
      = (execute_speed_mode fail limits r).1.map Ev.cmd ++ [Ev.sleep 1]
    ∧ ((execute_mode_mode fail r).2 = false →
        loop_iter fail (some "mode") limits r
          = (execute_mode_mode fail r).1.map Ev.cmd ++ [Ev.sleep 1])
    ∧ ((stop fail s).2.2 = false ↔ ∃ c ∈ zeroCmds s.mode, fail c = true) := by
  refine ⟨?_, ?_, ?_⟩
  · rw [loop_iter_speed, if_neg (by rw [hsp]; exact Bool.false_ne_true)]
  · intro hm
    rw [loop_iter_mode_mode, if_neg (by rw [hm]; exact Bool.false_ne_true)]
  · have hstop : (stop fail s).2.2 = (issueCmds fail (zeroCmds s.mode)).2 := by
      simp only [stop]
      split <;> simp_all
    rw [hstop, Bool.eq_false_iff, Ne, issueCmds_ok_iff]
    push_neg
    simp only [Bool.ne_false_iff]

theorem c4_witness :
    (execute_speed_mode (fun _ => true) initState.limits ⟨0, 0, 0, 5⟩).2 = false
    ∧ loop_iter (fun _ => true) (some "speed") initState.limits ⟨0, 0, 0, 5⟩
        = (execute_speed_mode (fun _ => true) initState.limits ⟨0, 0, 0, 5⟩).1.map
            Ev.cmd ++ [Ev.sleep 1] :=
  ⟨by decide,
   (c4_error_handling_amended (fun _ => true) initState.limits ⟨0, 0, 0, 5⟩
      runningSpeed (by decide)).1⟩

/-- A controller mid single-shot session: Running in Speed mode with
`auto_loop` false — the instance state while
`start('speed', limits, auto_loop=False)` is suspended at the
10-second hold of `_execute_once`. No loop task exists: `self.task` is
only assigned in the auto-loop branch of `start()`. -/
def singleShotSpeed : CtrlState :=
  { initState with is_running := true, mode := some "speed", auto_loop := false }

/-- C9 counterexample: a single-shot (`auto_loop=False`) Speed session
is suspended at its 10-second hold inside `start()`'s own coroutine —
there is no task handle and no timer for `stop()` to cancel. `stop()`
returns normally, yet the stopped session still takes a step
afterwards, and that step writes the delayed channel-B release
`set_speed('B', 0)` (the resume's mode check still sees `'speed'`
because `stop()` leaves `self.mode` unchanged) — contradicting the
claim that no delayed release write fires after `stop` has returned. -/
theorem c9_counterexample :
    (stop (fun _ => false) singleShotSpeed).2.2 = true
    ∧ SessionStep (fun _ => false)
        ⟨(stop (fun _ => false) singleShotSpeed).1, [], true⟩
        (single_shot_resume (fun _ => false) (some "speed"))
        ⟨(stop (fun _ => false) singleShotSpeed).1, [], false⟩
    ∧ Ev.cmd (DeviceCmd.set_speed "B" 0)
        ∈ single_shot_resume (fun _ => false) (some "speed") := by
  refine ⟨by decide, ?_, by decide⟩
  exact SessionStep.single_shot_wake
    ⟨(stop (fun _ => false) singleShotSpeed).1, [], true⟩ rfl

/-- C9 (amended): after a `stop()` that returned normally, the loop
task and any pending B-channel release timer are cancelled (`has_task`
and `has_b_timer` are false), so when no single-shot execution is in
flight the stopped session can take no step at all — no loop cycle, no
delayed release-timer firing. However, an in-flight single-shot
(`auto_loop=False`) execution is NOT cancelled by `stop()` (it runs
inside `start()`'s own coroutine with no task handle): the only step it
can still take after `stop()` returns is its wake-up, which replays the
inline channel-B release of the session's still-recorded mode. -/
theorem c9_stop_cancellation_amended (fail : DeviceCmd → Bool) (s : CtrlState)
    (rs : List Rand) (evs : List Ev) (cfg' : Config)
    (hok : (stop fail s).2.2 = true) :
    (stop fail s).1.has_task = false
    ∧ (stop fail s).1.has_b_timer = false
    ∧ ¬ SessionStep fail ⟨(stop fail s).1, rs, false⟩ evs cfg'
    ∧ (SessionStep fail ⟨(stop fail s).1, rs, true⟩ evs cfg' →
        evs = single_shot_resume fail (stop fail s).1.mode) := by
  rw [stop_state_of_ok hok]
  refine ⟨rfl, rfl, ?_, ?_⟩
  · intro hstep
    cases hstep with
    | loop_cycle r' rs' htask _ _ _ => simp at htask
    | timer_release htimer => simp at htimer
    | single_shot_wake hflag => simp at hflag
  · intro hstep
    cases hstep with
    | loop_cycle r' rs' htask _ _ _ => simp at htask
    | timer_release htimer => simp at htimer
    | single_shot_wake hflag => rfl

theorem c9_witness :
    (stop (fun _ => false) runningSpeed).2.2 = true
    ∧ (stop (fun _ => false) runningSpeed).1.has_task = false
    ∧ (stop (fun _ => false) runningSpeed).1.has_b_timer = false :=
  ⟨by decide,
   (c9_stop_cancellation_amended (fun _ => false) runningSpeed
      [] [] ⟨initState, [], false⟩ (by decide)).1,
   (c9_stop_cancellation_amended (fun _ => false) runningSpeed
      [] [] ⟨initState, [], false⟩ (by decide)).2.1⟩

end RandomCtrl
